import Mathlib

/-!
Verification of the clavedeoroBackend request handlers.

The repository is a small Express backend (routes in src/models/Review.js)
whose handlers validate inputs, shape payloads, and forward them to managed
external services (Supabase database/auth/storage, an SMTP relay).  Each
handler is embedded here as a pure Lean function; the outcomes of the
external calls (token verification, admin-row lookup, row fetch, storage
remove, mail send, insert/update errors) are passed in explicitly as
parameters, so a handler's control flow and the operations it issues are
modelled exactly as written in the source.
-/

namespace Clavedeoro

/-! ### JavaScript value model

Request bodies are parsed JSON.  A field of a body is an `Option JsVal`
(`none` models a key that is absent, i.e. `undefined` after destructuring).
Numbers are modelled as integers: the handlers only ever test a number for
JS truthiness (zero vs non-zero) or compare it against integer bounds.
-/

inductive JsVal where
  | str (s : String)
  | num (n : Int)
  | boolean (b : Bool)
  | jsNull
  | arr (elems : List String)
deriving DecidableEq

/-- JS truthiness of a defined value: `""`, `0`, `false`, `null` are falsy;
every array (even `[]`) is truthy. -/
def JsVal.truthy : JsVal → Bool
  | .str s => s != ""
  | .num n => n != 0
  | .boolean b => b
  | .jsNull => false
  | .arr _ => true

/-- JS truthiness of a possibly-absent field (`undefined` is falsy). -/
def truthyOpt : Option JsVal → Bool
  | none => false
  | some v => v.truthy

/-- JS truthiness of a possibly-absent string (`undefined` and `""` falsy). -/
def truthyStr : Option String → Bool
  | none => false
  | some s => s != ""

/-- JS string coercion used by template literals. -/
def JsVal.toStr : JsVal → String
  | .str s => s
  | .num n => toString n
  | .boolean b => cond b "true" "false"
  | .jsNull => "null"
  | .arr elems => String.intercalate "," elems

/-- Template-literal interpolation of a possibly-absent field. -/
def optToStr : Option JsVal → String
  | none => "undefined"
  | some v => v.toStr

/-- JS `a || b` on strings, where failure/absence is the empty string. -/
def jsOrS (a b : String) : String := if a = "" then b else a

/-! ### String helpers mirroring the JS/Node primitives the routes use -/

/-- List-of-chars test that `s` begins with `pat`. -/
def beginsWith : List Char → List Char → Bool
  | _, [] => true
  | [], _ :: _ => false
  | a :: as, b :: bs => a == b && beginsWith as bs

/-- JS `String.indexOf` on char lists: index of first occurrence of `pat`. -/
def idxOfAux (s pat : List Char) : Option Nat :=
  match s with
  | [] => if pat.isEmpty then some 0 else none
  | c :: t =>
    if beginsWith (c :: t) pat then some 0
    else (idxOfAux t pat).map (· + 1)

/-- JS `String.indexOf`: `none` models the `-1` result. -/
def strIdx (s pat : String) : Option Nat := idxOfAux s.data pat.data

/-- JS `String.replace` with a string pattern: replaces the first occurrence
only. -/
def replaceOnceL (s pat rep : List Char) : List Char :=
  match s with
  | [] => if pat.isEmpty then rep else []
  | c :: t =>
    if beginsWith (c :: t) pat then rep ++ (c :: t).drop pat.length
    else c :: replaceOnceL t pat rep

/-- JS `String.replace` on strings (first occurrence only). -/
def replaceFirst (s pat rep : String) : String :=
  ⟨replaceOnceL s.data pat.data rep.data⟩

/-- JS `String.split` with a one-character separator, on char lists:
adjacent separators and boundary separators yield empty pieces, exactly as
in JS (`'a  b'.split(' ')` is `['a','','b']`, `''.split(' ')` is `['']`). -/
def splitCharAux (cs : List Char) (sep : Char) (acc : List Char) : List (List Char) :=
  match cs with
  | [] => [acc.reverse]
  | c :: t =>
    if c == sep then acc.reverse :: splitCharAux t sep []
    else splitCharAux t sep (c :: acc)

/-- JS `String.split` with a one-character separator. -/
def splitChar (s : String) (sep : Char) : List String :=
  (splitCharAux s.data sep []).map (fun l => ⟨l⟩)

/-- ASCII whitespace test for `trimChars`. -/
def isWS (c : Char) : Bool := c == ' ' || c == '\t' || c == '\n' || c == '\r'

/-- JS `String.trim` (restricted to the ASCII whitespace the template
literal in the source can produce). -/
def trimChars (s : String) : String :=
  ⟨((s.data.dropWhile isWS).reverse.dropWhile isWS).reverse⟩

/-- Index of the last dot in a char list. -/
def lastDotIdx (cs : List Char) (i : Nat) (acc : Option Nat) : Option Nat :=
  match cs with
  | [] => acc
  | c :: t => lastDotIdx t (i + 1) (if c == '.' then some i else acc)

/-- Node `path.extname` on POSIX paths: the extension (with its dot) of the
component after the last slash; empty when there is no dot or the only dot
leads the basename (dotfiles), and empty for `.` and `..`. -/
def extnameJs (p : String) : String :=
  let base := (splitChar p '/').getLastD ""
  if base = "." ∨ base = ".." then ""
  else
    match lastDotIdx base.data 0 none with
    | none => ""
    | some i => if i = 0 then "" else base.drop i

/-! ### Auth gate (verifySupabaseUser, requireAdmin)

`verifySupabaseUser` extracts a bearer token from the `Authorization`
header (`header.split(' ')[1]`), answers 403 when the token is missing or
empty, asks the auth provider (`supabase.auth.getUser`) to resolve it, and
answers 401 when the provider rejects it.  `requireAdmin` then looks up the
resolved identity in the `admin_users` table (`.single()`, whose
no-row-found outcome carries the error code `PGRST116`): a lookup error
other than no-row is 500; no row, or a row whose `is_admin` is falsy,
is 403.  The two external calls are parameters: `getUser` returns the
resolved user id (`none` models rejection / no user), `adminLookup` returns
the row or the error code string.
-/

/-- Row of the `admin_users` table. -/
structure AdminRow where
  auth_user_id : String
  is_admin : Bool
deriving DecidableEq

/-- Outcome of one Express middleware: pass control onward carrying `α`, or
answer immediately with a status and message. -/
inductive MidResult (α : Type) where
  | next (a : α)
  | resp (status : Nat) (msg : String)
deriving DecidableEq

/-- Token extraction from the Authorization header:
`req.header('Authorization')?.split(' ')[1]`. -/
def extractToken (authHeader : Option String) : Option String :=
  authHeader.bind fun s => (splitChar s ' ')[1]?

/-- The `verifySupabaseUser` middleware. -/
def verifySupabaseUser (getUser : String → Option String)
    (authHeader : Option String) : MidResult String :=
  let token := extractToken authHeader
  if !truthyStr token then .resp 403 "Access denied: missing token"
  else
    match getUser (token.getD "") with
    | none => .resp 401 "Invalid or expired Supabase token"
    | some uid => .next uid

/-- The `requireAdmin` middleware, applied to the verified user id. -/
def requireAdmin (adminLookup : String → Except String AdminRow)
    (uid : String) : MidResult AdminRow :=
  if uid = "" then .resp 401 "Unauthorized"
  else
    match adminLookup uid with
    | .error code =>
      if code ≠ "PGRST116" then .resp 500 "Server error"
      else .resp 403 "Admin privileges required"
    | .ok adminRow =>
      if !adminRow.is_admin then .resp 403 "Admin privileges required"
      else .next adminRow

/-- Overall outcome of the admin gate on a request. -/
inductive GateOutcome where
  | proceed (uid : String) (admin : AdminRow)
  | halt (status : Nat) (msg : String)
deriving DecidableEq

/-- The chained gate every admin route passes through:
`verifySupabaseUser` then `requireAdmin`. -/
def adminGate (getUser : String → Option String)
    (adminLookup : String → Except String AdminRow)
    (authHeader : Option String) : GateOutcome :=
  match verifySupabaseUser getUser authHeader with
  | .resp s m => .halt s m
  | .next uid =>
    match requireAdmin adminLookup uid with
    | .resp s m => .halt s m
    | .next r => .proceed uid r

/-! ### Property creation (POST /admin/properties)

The handler destructures twelve named fields from the body (note: the
singular `image`, never `images`), requires seven of them to be JS-truthy,
builds the insert payload, and issues a single insert.  `insertErr` is the
outcome of the external insert call.
-/

/-- The fields of a property-create request body.  `images` appears here
because a client may send it, but the handler never destructures it. -/
structure PropCreateBody where
  name : Option JsVal
  description : Option JsVal
  price : Option JsVal
  location : Option JsVal
  owner : Option JsVal
  area : Option JsVal
  exactAddress : Option JsVal
  bhkType : Option JsVal
  amenities : Option JsVal
  ratings : Option JsVal
  reviews : Option JsVal
  image : Option JsVal
  images : Option JsVal
deriving DecidableEq

/-- The payload the create handler passes to the insert call. -/
structure PropPayload where
  name : Option JsVal
  description : Option JsVal
  price : Option JsVal
  location : Option JsVal
  owner : Option JsVal
  area : Option JsVal
  exactAddress : Option JsVal
  bhkType : Option JsVal
  amenities : Option JsVal
  ratings : Option JsVal
  reviews : Option JsVal
  image : Option JsVal
  created_by : String
deriving DecidableEq

/-- A row of the `properties` table.  The `images` column (an ordered
sequence of URL strings, or null) is touched only by the image
attach/detach endpoints. -/
structure PropRow where
  id : Nat
  name : Option JsVal
  description : Option JsVal
  price : Option JsVal
  location : Option JsVal
  owner : Option JsVal
  area : Option JsVal
  exactAddress : Option JsVal
  bhkType : Option JsVal
  amenities : Option JsVal
  ratings : Option JsVal
  reviews : Option JsVal
  image : Option JsVal
  images : Option (List String)
  created_by : String
deriving DecidableEq

/-- Row materialized by a successful insert of a create payload: the
payload's columns; the untouched `images` column stays null. -/
def rowOfPayload (id : Nat) (p : PropPayload) : PropRow :=
  { id := id, name := p.name, description := p.description, price := p.price,
    location := p.location, owner := p.owner, area := p.area,
    exactAddress := p.exactAddress, bhkType := p.bhkType,
    amenities := p.amenities, ratings := p.ratings, reviews := p.reviews,
    image := p.image, images := none, created_by := p.created_by }

/-- Response of the create handler, together with the insert it issued
(`inserted = none` means no insert call was made). -/
structure CreateResp where
  status : Nat
  msg : String
  inserted : Option PropPayload
deriving DecidableEq

/-- The POST /admin/properties handler body (after the admin gate). -/
def createProperty (uid : String) (body : PropCreateBody)
    (insertErr : Option String) : CreateResp :=
  if !truthyOpt body.name || !truthyOpt body.owner || !truthyOpt body.price ||
      !truthyOpt body.area || !truthyOpt body.exactAddress ||
      !truthyOpt body.bhkType || !truthyOpt body.location then
    { status := 400, msg := "Missing required fields", inserted := none }
  else
    let payload : PropPayload :=
      { name := body.name, description := body.description,
        price := body.price, location := body.location, owner := body.owner,
        area := body.area, exactAddress := body.exactAddress,
        bhkType := body.bhkType, amenities := body.amenities,
        ratings := body.ratings, reviews := body.reviews,
        image := body.image, created_by := uid }
    match insertErr with
    | some _ => { status := 500, msg := "Error creating property", inserted := some payload }
    | none => { status := 201, msg := "", inserted := some payload }

/-- State of the `properties` table after the create request: a row is
appended exactly when an insert was issued and succeeded. -/
def tableAfterCreate (db : List PropRow) (newId : Nat) (r : CreateResp) : List PropRow :=
  match r.inserted, r.status with
  | some p, 201 => db ++ [rowOfPayload newId p]
  | _, _ => db

/-! ### Review creation (POST /admin/reviews) -/

/-- The fields of a review-create request body. -/
structure ReviewBody where
  customerName : Option JsVal
  ratings : Option JsVal
  review : Option JsVal
  image : Option JsVal
deriving DecidableEq

/-- The payload the review-create handler passes to the insert call. -/
structure ReviewPayload where
  customerName : Option JsVal
  ratings : Option JsVal
  review : Option JsVal
  image : Option JsVal
  created_by : String
deriving DecidableEq

/-- The handler's explicit check `ratings === undefined || ratings === null`. -/
def ratingsAbsent : Option JsVal → Bool
  | none => true
  | some .jsNull => true
  | some _ => false

/-- Modelled from the spec: the reviews store's row constraint.  The
Supabase `reviews` table schema is not part of src; the spec states
"customerName and ratings required at creation; ratings must lie in
[1,5]", matching the repository's Sequelize `Review` model (customerName
`allowNull: false`; ratings INTEGER, `allowNull: false`, validate
min 1 / max 5). -/
def reviewRowOk (p : ReviewPayload) : Bool :=
  (match p.customerName with
   | none => false
   | some .jsNull => false
   | some _ => true) &&
  (match p.ratings with
   | some (.num n) => decide (1 ≤ n) && decide (n ≤ 5)
   | _ => false)

/-- Response of the review-create handler; `created` is the row the store
accepted, if any. -/
structure ReviewResp where
  status : Nat
  msg : String
  created : Option ReviewPayload
deriving DecidableEq

/-- The POST /admin/reviews handler body (after the admin gate). -/
def createReview (uid : String) (body : ReviewBody) : ReviewResp :=
  if !truthyOpt body.customerName || ratingsAbsent body.ratings then
    { status := 400, msg := "Customer name and ratings are required", created := none }
  else
    let payload : ReviewPayload :=
      { customerName := body.customerName, ratings := body.ratings,
        review := body.review, image := body.image, created_by := uid }
    if reviewRowOk payload then
      { status := 201, msg := "", created := some payload }
    else
      { status := 500, msg := "Server error", created := none }

/-! ### Image attach/detach on a property

Both handlers first fetch the property row (`.single()`: error code
`PGRST116` means no row).  Attach uploads each file in order and appends
the resulting public URLs to the current images sequence
(`Array.isArray(prop.images) ? prop.images : []`); detach requires the URL
to be present, derives the object path from the public-URL template,
removes the object from storage, and only then writes the filtered
sequence back.
-/

/-- `Array.isArray(prop.images) ? prop.images : []`. -/
def currentImages : Option (List String) → List String
  | some l => l
  | none => []

/-- The public-URL prefix the detach handler strips:
`/storage/v1/object/public/property-images/`. -/
def publicBase : String := "/storage/v1/object/public/property-images/"

/-- What the handler reads off one multer file. -/
structure FileMeta where
  originalname : String
  mimetype : String
deriving DecidableEq

/-- The attach handler's sequential upload loop: each file yields a public
URL; the first failing upload aborts the loop (the thrown error reaches
the catch block). -/
def uploadAll (files : List FileMeta) (up : FileMeta → Except String String) :
    Except String (List String) :=
  match files with
  | [] => .ok []
  | f :: fs =>
    match up f with
    | .error e => .error e
    | .ok u =>
      match uploadAll fs up with
      | .error e => .error e
      | .ok us => .ok (u :: us)

/-- Response of the attach handler; `dbCommitted` is the images list the
database accepted (`none` when no update committed). -/
structure AttachResp where
  status : Nat
  msg : String
  dbCommitted : Option (List String)
deriving DecidableEq

/-- The POST /admin/properties/:id/upload-images handler body.  `fetch` is
the outcome of the row fetch, `up` the per-file storage upload, `updErr`
the outcome of the database update. -/
def attachImages (fetch : Except String (Option (List String)))
    (files : List FileMeta) (up : FileMeta → Except String String)
    (updErr : Option String) : AttachResp :=
  if files.length = 0 then { status := 400, msg := "No files uploaded", dbCommitted := none }
  else
    match fetch with
    | .error code =>
      if code = "PGRST116" then { status := 404, msg := "Property not found", dbCommitted := none }
      else { status := 500, msg := "Error reading property", dbCommitted := none }
    | .ok imgsOpt =>
      match uploadAll files up with
      | .error _e => { status := 500, msg := "Upload failed", dbCommitted := none }
      | .ok uploaded =>
        let updatedImages := currentImages imgsOpt ++ uploaded
        match updErr with
        | some _ => { status := 500, msg := "Failed to save image URLs", dbCommitted := none }
        | none => { status := 200, msg := "Uploaded", dbCommitted := some updatedImages }

/-- Response of the detach handler.  `removeAttempted` is the object path
passed to the storage remove call, if that call was made;
`updateIssued` records whether the database update statement was issued at
all; `dbCommitted` is the images list the database accepted. -/
structure DetachResp where
  status : Nat
  msg : String
  removeAttempted : Option String
  updateIssued : Bool
  dbCommitted : Option (List String)
deriving DecidableEq

/-- The DELETE /admin/properties/:id/images handler body.  `fetch` is the
row fetch outcome, `url` the body's url field, `removeErr` the outcome of
the storage remove, `updErr` the outcome of the database update. -/
def detachImage (fetch : Except String (Option (List String)))
    (url : Option String) (removeErr updErr : Option String) : DetachResp :=
  if !truthyStr url then
    { status := 400, msg := "Missing url", removeAttempted := none,
      updateIssued := false, dbCommitted := none }
  else
    let u := url.getD ""
    match fetch with
    | .error code =>
      if code = "PGRST116" then
        { status := 404, msg := "Property not found", removeAttempted := none,
          updateIssued := false, dbCommitted := none }
      else
        { status := 500, msg := "Error reading property", removeAttempted := none,
          updateIssued := false, dbCommitted := none }
    | .ok imgsOpt =>
      let images := currentImages imgsOpt
      if !images.contains u then
        { status := 400, msg := "URL not found on property", removeAttempted := none,
          updateIssued := false, dbCommitted := none }
      else
        match strIdx u publicBase with
        | none =>
          { status := 400, msg := "Unrecognized storage URL", removeAttempted := none,
            updateIssued := false, dbCommitted := none }
        | some idx =>
          let objectPath := u.drop (idx + publicBase.length)
          match removeErr with
          | some _ =>
            { status := 500, msg := "Failed to delete file", removeAttempted := some objectPath,
              updateIssued := false, dbCommitted := none }
          | none =>
            let newImages := images.filter (fun v => v != u)
            match updErr with
            | some _ =>
              { status := 500, msg := "Failed to update DB", removeAttempted := some objectPath,
                updateIssued := true, dbCommitted := none }
            | none =>
              { status := 200, msg := "Removed", removeAttempted := some objectPath,
                updateIssued := true, dbCommitted := some newImages }

/-- The property's images sequence after a detach request, given the
sequence it held before. -/
def detachImagesAfter (current : List String) (r : DetachResp) : List String :=
  match r.dbCommitted with
  | some l => l
  | none => current

/-! ### Object-storage adapter (uploadToBucket) -/

/-- The extension chain of `uploadToBucket`:
`mime.extension(mimetype) || path.extname(originalName).replace('.', '') || 'bin'`.
The MIME-type table lives in the external mime-types package, so the
derivation is a parameter returning the extension or failure. -/
def extFor (mimeExt : String → Option String) (mimetype originalName : String) : String :=
  jsOrS (jsOrS ((mimeExt mimetype).getD "") (replaceFirst (extnameJs originalName) "." "")) "bin"

/-- The generated object key:
`[subfolder, uuid + '.' + ext].filter(Boolean).join('/')`. -/
def objectKey (subfolder fresh ext : String) : String :=
  String.intercalate "/" (([subfolder, fresh ++ "." ++ ext]).filter (fun s => s != ""))

/-- The storage upload call as issued: bucket, key and the upsert flag. -/
structure StorageUpload where
  bucket : String
  key : String
  upsert : Bool
deriving DecidableEq

/-- Outcome of `uploadToBucket`: the upload it issued and its result
(`.ok (key, publicUrl)` on success, the thrown error otherwise). -/
structure UploadOutcome where
  issued : StorageUpload
  result : Except String (String × String)

/-- The `uploadToBucket` helper.  `mimeExt` models `mime.extension`,
`publicUrlOf` models `getPublicUrl`, `fresh` the generated uuid, and
`upErr` the outcome of the storage write. -/
def uploadToBucket (mimeExt : String → Option String)
    (publicUrlOf : String → String → String) (fresh : String)
    (upErr : Option String) (bucket originalName mimetype subfolder : String) :
    UploadOutcome :=
  let ext := extFor mimeExt mimetype originalName
  let key := objectKey subfolder fresh ext
  { issued := { bucket := bucket, key := key, upsert := false },
    result :=
      match upErr with
      | some e => .error e
      | none => .ok (key, publicUrlOf bucket key) }

/-! ### Contact form (sendContactForm, POST /contactform) -/

/-- The fields of a contact-form submission body. -/
structure ContactBody where
  name : Option JsVal
  phone : Option JsVal
  email : Option JsVal
  subject : Option JsVal
  countryCode : Option JsVal
deriving DecidableEq

/-- One outgoing mail message as handed to the transport.  The JS field
`from` is a Lean keyword, hence `fromAddr`. -/
structure MailMsg where
  fromAddr : String
  toAddr : String
  subject : String
  text : String
deriving DecidableEq

/-- The mail environment: `MAIL_FROM` and `MAIL_USER` (absent variables are
empty strings, as in `process.env.X || ''`). -/
structure MailEnv where
  MAIL_FROM : String
  MAIL_USER : String
deriving DecidableEq

/-- `process.env.MAIL_FROM || process.env.MAIL_USER || ''` — used both as
the sender of each mail and as the recipient of the second. -/
def mailFallbackAddr (env : MailEnv) : String :=
  jsOrS (jsOrS env.MAIL_FROM env.MAIL_USER) ""

/-- The formatted body both mails share (the template literal, trimmed). -/
def contactText (fd : ContactBody) : String :=
  trimChars ("\nName: " ++ optToStr fd.name ++
   "\nPhone Number: " ++ optToStr fd.phone ++
   "\nEmail: " ++ optToStr fd.email ++
   "\nSubject: " ++ optToStr fd.subject ++
   "\nCountry Code: " ++ optToStr fd.countryCode ++ "\n")

/-- The first mail: addressed to the submitter's provided email. -/
def contactMail1 (env : MailEnv) (fd : ContactBody) : MailMsg :=
  { fromAddr := mailFallbackAddr env, toAddr := optToStr fd.email,
    subject := "New Contact Form", text := contactText fd }

/-- The second mail: addressed to the configured operator inbox. -/
def contactMail2 (env : MailEnv) (fd : ContactBody) : MailMsg :=
  { fromAddr := mailFallbackAddr env, toAddr := mailFallbackAddr env,
    subject := "New Contact Form", text := contactText fd }

/-- Trace of the notifier's sends: which mails it handed to the transport,
which the transport accepted, and the first error thrown, if any. -/
structure SendTrace where
  attempted : List MailMsg
  delivered : List MailMsg
  failure : Option String
deriving DecidableEq

/-- The `sendContactForm` helper: sends the first mail, awaits it, then
sends the second.  `e1`/`e2` are the outcomes of the two transport calls;
a failing first send throws before the second is ever attempted. -/
def sendContactForm (env : MailEnv) (fd : ContactBody)
    (e1 e2 : Option String) : SendTrace :=
  let m1 := contactMail1 env fd
  match e1 with
  | some err => { attempted := [m1], delivered := [], failure := some err }
  | none =>
    let m2 := contactMail2 env fd
    match e2 with
    | some err => { attempted := [m1, m2], delivered := [m1], failure := some err }
    | none => { attempted := [m1, m2], delivered := [m1, m2], failure := none }

/-- Response of the contact-form route together with the send trace. -/
structure ContactResp where
  status : Nat
  msg : String
  trace : SendTrace
deriving DecidableEq

/-- The POST /contactform handler body. -/
def contactformHandler (env : MailEnv) (body : ContactBody)
    (e1 e2 : Option String) : ContactResp :=
  if !truthyOpt body.name || !truthyOpt body.phone || !truthyOpt body.email then
    { status := 400, msg := "Missing required fields",
      trace := { attempted := [], delivered := [], failure := none } }
  else
    let t := sendContactForm env body e1 e2
    match t.failure with
    | some _ => { status := 500, msg := "Error sending email", trace := t }
    | none => { status := 200, msg := "Form submitted successfully, email sent.", trace := t }

/-! ### Property update (PUT /admin/properties/:id) -/

/-- The fields a property-update request body may carry; `none` models a
key absent from the body.  The handler forwards the whole body to the
update call. -/
structure PropUpdateBody where
  name : Option JsVal
  description : Option JsVal
  price : Option JsVal
  location : Option JsVal
  owner : Option JsVal
  area : Option JsVal
  exactAddress : Option JsVal
  bhkType : Option JsVal
  amenities : Option JsVal
  ratings : Option JsVal
  reviews : Option JsVal
  image : Option JsVal
  images : Option (List String)
deriving DecidableEq

/-- One column under a partial update: the supplied value if the body
carries the key, the old value otherwise. -/
def upd (new old : Option JsVal) : Option JsVal :=
  match new with
  | some v => some v
  | none => old

/-- Modelled from the spec: the managed database's update call applies a
partial update — caller-supplied columns overwrite, columns absent from
the payload are left unchanged.  (The store itself is an external managed
service; only the handler that invokes it is in src.) -/
def applyUpdate (row : PropRow) (b : PropUpdateBody) : PropRow :=
  { row with
    name := upd b.name row.name,
    description := upd b.description row.description,
    price := upd b.price row.price,
    location := upd b.location row.location,
    owner := upd b.owner row.owner,
    area := upd b.area row.area,
    exactAddress := upd b.exactAddress row.exactAddress,
    bhkType := upd b.bhkType row.bhkType,
    amenities := upd b.amenities row.amenities,
    ratings := upd b.ratings row.ratings,
    reviews := upd b.reviews row.reviews,
    image := upd b.image row.image,
    images := match b.images with | some l => some l | none => row.images }

/-- Response of the update handler; `written` is the row as the store
holds it after a committed update (`none` when nothing was written). -/
structure UpdateResp where
  status : Nat
  msg : String
  written : Option PropRow
deriving DecidableEq

/-- The PUT /admin/properties/:id handler body.  `fetch` is the outcome of
the existence check (`.single()` on the id; error code `PGRST116` means no
row), `updErr` the outcome of the update call. -/
def updatePropertyHandler (fetch : Except String PropRow)
    (b : PropUpdateBody) (updErr : Option String) : UpdateResp :=
  match fetch with
  | .error code =>
    if code = "PGRST116" then { status := 404, msg := "Property not found", written := none }
    else { status := 500, msg := "Error updating property", written := none }
  | .ok row =>
    match updErr with
    | some _ => { status := 500, msg := "Error updating property", written := none }
    | none =>
      { status := 200, msg := "Property updated successfully",
        written := some (applyUpdate row b) }

/-! ### Concrete external-service behaviors and request inputs

Closed instances of the external-call parameters and request bodies, used
to evaluate the handlers at concrete inputs.
-/

/-- An auth provider that resolves exactly the token "tok" to user "uid1". -/
def g0 : String → Option String := fun t => if t = "tok" then some "uid1" else none

/-- An admin-flag table with no row for "uid1" (no-row error code). -/
def l0 : String → Except String AdminRow :=
  fun u => if u = "uid1" then .error "PGRST116" else .error "boom"

/-- An admin-flag table holding a row for "uid1" with the flag false. -/
def lFalse : String → Except String AdminRow :=
  fun u => if u = "uid1" then .ok { auth_user_id := "uid1", is_admin := false }
           else .error "boom"

/-- An admin-flag table whose every lookup fails with a non-no-row error. -/
def lBoom : String → Except String AdminRow := fun _ => .error "boom"

/-- A property-create body with `owner` missing and everything else valid. -/
def cBody2 : PropCreateBody :=
  { name := some (.str "Casa"), description := none, price := some (.num 100),
    location := some (.str "GDL"), owner := none, area := some (.num 50),
    exactAddress := some (.str "Calle 1"), bhkType := some (.str "2"),
    amenities := none, ratings := none, reviews := none, image := none,
    images := none }

/-- A property-create body with `price` present but zero, all other
required fields valid. -/
def cBody9 : PropCreateBody :=
  { name := some (.str "Casa"), description := none, price := some (.num 0),
    location := some (.str "GDL"), owner := some (.str "Ana"),
    area := some (.num 50), exactAddress := some (.str "Calle 1"),
    bhkType := some (.str "2"), amenities := none, ratings := none,
    reviews := none, image := none, images := none }

/-- A fully valid property-create body carrying a singular `image`. -/
def cBody10 : PropCreateBody :=
  { name := some (.str "Casa"), description := none, price := some (.num 100),
    location := some (.str "GDL"), owner := some (.str "Ana"),
    area := some (.num 50), exactAddress := some (.str "Calle 1"),
    bhkType := some (.str "2"), amenities := none, ratings := none,
    reviews := none, image := some (.str "cover.png"), images := none }

/-- The payload the create handler builds from `cBody10` for user "u1". -/
def cPayload10 : PropPayload :=
  { name := some (.str "Casa"), description := none, price := some (.num 100),
    location := some (.str "GDL"), owner := some (.str "Ana"),
    area := some (.num 50), exactAddress := some (.str "Calle 1"),
    bhkType := some (.str "2"), amenities := none, ratings := none,
    reviews := none, image := some (.str "cover.png"), created_by := "u1" }

/-- A review-create body with a ratings value of 7. -/
def cBody3 : ReviewBody :=
  { customerName := some (.str "Bob"), ratings := some (.num 7),
    review := none, image := none }

/-- First file of the attach scenario. -/
def scFile1 : FileMeta := { originalname := "a.png", mimetype := "image/png" }

/-- Second file of the attach scenario. -/
def scFile2 : FileMeta := { originalname := "b.jpg", mimetype := "image/jpeg" }

/-- Public URL the storage assigns a file in the scenario's per-property
folder. -/
def scUrl (f : FileMeta) : String :=
  "https://proj.supabase.co" ++ publicBase ++ "properties/7/" ++ f.originalname

/-- A per-file upload that always succeeds with `scUrl`. -/
def scUp (f : FileMeta) : Except String String := .ok (scUrl f)

/-- The create payload of the attach/detach scenario's property. -/
def scPayload : PropPayload :=
  { name := some (.str "Casa"), description := none, price := some (.num 100),
    location := some (.str "GDL"), owner := some (.str "Ana"),
    area := some (.num 50), exactAddress := some (.str "Calle 1"),
    bhkType := some (.str "2"), amenities := none, ratings := none,
    reviews := none, image := none, created_by := "u1" }

/-- A MIME-extension table resolving only image/png. -/
def mimeExtC : String → Option String :=
  fun m => if m = "image/png" then some "png" else none

/-- A MIME-extension table that resolves nothing. -/
def mimeExt0 : String → Option String := fun _ => none

/-- The public-URL scheme of the storage service. -/
def pubC : String → String → String :=
  fun bucket key =>
    "https://proj.supabase.co/storage/v1/object/public/" ++ bucket ++ "/" ++ key

/-- A concrete mail environment. -/
def cEnv7 : MailEnv :=
  { MAIL_FROM := "ops@clavedeoro.com", MAIL_USER := "mailer@clavedeoro.com" }

/-- The spec's concrete contact-form submission. -/
def cBody7 : ContactBody :=
  { name := some (.str "A"), phone := some (.str "123"),
    email := some (.str "a@x.com"), subject := some (.str "hi"),
    countryCode := some (.str "+1") }

/-- A concrete stored property row for the update claim. -/
def cRow8 : PropRow :=
  { id := 5, name := some (.str "Old"), description := some (.str "d"),
    price := some (.num 1), location := some (.str "L"),
    owner := some (.str "O"), area := some (.num 2),
    exactAddress := some (.str "A"), bhkType := some (.str "1"),
    amenities := none, ratings := none, reviews := none, image := none,
    images := some ["u"], created_by := "u1" }

/-- A concrete partial-update body carrying only `name`. -/
def cUpd8 : PropUpdateBody :=
  { name := some (.str "New"), description := none, price := none,
    location := none, owner := none, area := none, exactAddress := none,
    bhkType := none, amenities := none, ratings := none, reviews := none,
    image := none, images := none }

/-! ### Theorems -/

/-- Helper: when every upload in the list succeeds with the URL given by
`g`, the sequential upload loop returns exactly the per-file URLs in file
order. -/
theorem uploadAll_ok (up : FileMeta → Except String String)
    (g : FileMeta → String) :
    ∀ files : List FileMeta, (∀ f ∈ files, up f = .ok (g f)) →
      uploadAll files up = .ok (files.map g) := by
  intro files
  induction files with
  | nil => intro _; rfl
  | cons f fs ih =>
    intro h
    have hf := h f (List.mem_cons_self f fs)
    have hfs := ih (fun x hx => h x (List.mem_cons_of_mem f hx))
    simp [uploadAll, hf, hfs]

/-- C1: on every admin-gated request the gate checks run in order — a
request whose Authorization header carries no (truthy) bearer token is
answered 403 before any external call; a present token the auth provider
rejects is answered 401 and the gate's outcome does not depend on the
admin-flag table, which is never consulted; a valid token whose identity
has no admin-flag row, or a row with the flag false, is answered
403 Forbidden, never 401. -/
theorem C1_auth_gate_order (g : String → Option String)
    (l l2 : String → Except String AdminRow) (h : Option String) :
    (truthyStr (extractToken h) = false →
      adminGate g l h = .halt 403 "Access denied: missing token")
    ∧ (∀ t, extractToken h = some t → t ≠ "" → g t = none →
        adminGate g l h = .halt 401 "Invalid or expired Supabase token"
        ∧ adminGate g l h = adminGate g l2 h)
    ∧ (∀ t uid, extractToken h = some t → t ≠ "" → g t = some uid → uid ≠ "" →
        l uid = .error "PGRST116" →
        adminGate g l h = .halt 403 "Admin privileges required")
    ∧ (∀ t uid r, extractToken h = some t → t ≠ "" → g t = some uid → uid ≠ "" →
        l uid = .ok r → r.is_admin = false →
        adminGate g l h = .halt 403 "Admin privileges required") := by
  refine ⟨?_, ?_, ?_, ?_⟩
  · intro h1
    simp [adminGate, verifySupabaseUser, h1]
  · intro t ht htne hg
    constructor
    · simp [adminGate, verifySupabaseUser, ht, truthyStr, htne, hg]
    · simp [adminGate, verifySupabaseUser, ht, truthyStr, htne, hg]
  · intro t uid ht htne hg huid hl
    simp [adminGate, verifySupabaseUser, requireAdmin, ht, truthyStr, htne,
      hg, huid, hl]
  · intro t uid r ht htne hg huid hl hr
    simp [adminGate, verifySupabaseUser, requireAdmin, ht, truthyStr, htne,
      hg, huid, hl, hr]

/-- C1 witness: the gate evaluated at a concrete auth provider and
admin-flag table — missing header gives 403; a rejected token gives 401
independently of the lookup table; a valid token with no admin row, or a
row with the flag false, gives 403. -/
theorem C1_auth_gate_order_witness :
    adminGate g0 l0 none = .halt 403 "Access denied: missing token"
    ∧ adminGate g0 l0 (some "Bearer badtok") = .halt 401 "Invalid or expired Supabase token"
    ∧ adminGate g0 l0 (some "Bearer badtok") = adminGate g0 lBoom (some "Bearer badtok")
    ∧ adminGate g0 l0 (some "Bearer tok") = .halt 403 "Admin privileges required"
    ∧ adminGate g0 lFalse (some "Bearer tok") = .halt 403 "Admin privileges required" := by
  obtain ⟨p1, _, _, _⟩ := C1_auth_gate_order g0 l0 lBoom none
  obtain ⟨_, q2, _, _⟩ := C1_auth_gate_order g0 l0 lBoom (some "Bearer badtok")
  obtain ⟨_, _, z3, _⟩ := C1_auth_gate_order g0 l0 lBoom (some "Bearer tok")
  obtain ⟨_, _, _, w4⟩ := C1_auth_gate_order g0 lFalse lBoom (some "Bearer tok")
  refine ⟨p1 (by decide), ?_, ?_, ?_, ?_⟩
  · exact (q2 "badtok" (by decide) (by decide) (by decide)).1
  · exact (q2 "badtok" (by decide) (by decide) (by decide)).2
  · exact z3 "tok" "uid1" (by decide) (by decide) (by decide) (by decide) rfl
  · exact w4 "tok" "uid1" { auth_user_id := "uid1", is_admin := false }
      (by decide) (by decide) (by decide) (by decide) rfl rfl

/-- C2: a property-create request whose body is missing any of the seven
required fields is answered 400, no insert call is issued, and the
properties table is left unchanged. -/
theorem C2_create_missing_fields (uid : String) (body : PropCreateBody)
    (h : body.name = none ∨ body.owner = none ∨ body.price = none ∨
         body.area = none ∨ body.exactAddress = none ∨ body.bhkType = none ∨
         body.location = none) :
    ∀ (insertErr : Option String) (db : List PropRow) (newId : Nat),
      (createProperty uid body insertErr).status = 400
      ∧ (createProperty uid body insertErr).inserted = none
      ∧ tableAfterCreate db newId (createProperty uid body insertErr) = db := by
  intro e db newId
  have hrej : createProperty uid body e =
      { status := 400, msg := "Missing required fields", inserted := none } := by
    unfold createProperty
    rcases h with h | h | h | h | h | h | h <;> simp [h, truthyOpt]
  rw [hrej]
  exact ⟨rfl, rfl, rfl⟩

/-- C2 witness: a concrete body with `owner` missing is answered 400, no
insert is issued, and an empty table stays empty. -/
theorem C2_create_missing_fields_witness :
    (createProperty "u1" cBody2 none).status = 400
    ∧ (createProperty "u1" cBody2 none).inserted = none
    ∧ tableAfterCreate [] 1 (createProperty "u1" cBody2 none) = [] :=
  C2_create_missing_fields "u1" cBody2 (Or.inr (Or.inl rfl)) none [] 1

/-- C9: the required-field check tests JS truthiness, not presence — a
create body whose price or area is present but 0, or whose name is the
empty string, is rejected 400 "Missing required fields" with no insert,
and a zero-valued price is indistinguishable from an absent one. -/
theorem C9_create_truthiness (uid : String) (body : PropCreateBody)
    (h : body.price = some (.num 0) ∨ body.area = some (.num 0) ∨
         body.name = some (.str "")) :
    ∀ insertErr : Option String,
      createProperty uid body insertErr =
        { status := 400, msg := "Missing required fields", inserted := none }
      ∧ ∀ b2 : PropCreateBody,
          createProperty uid { b2 with price := some (.num 0) } insertErr
            = createProperty uid { b2 with price := none } insertErr := by
  intro e
  constructor
  · unfold createProperty
    rcases h with h | h | h <;> simp [h, truthyOpt, JsVal.truthy]
  · intro b2
    unfold createProperty
    simp [truthyOpt, JsVal.truthy]

/-- C9 witness: the concrete body with price 0 is rejected 400 with the
"Missing required fields" message and no insert, and setting price 0 on a
concrete body is observationally equal to omitting it. -/
theorem C9_create_truthiness_witness :
    createProperty "u1" cBody9 none =
      { status := 400, msg := "Missing required fields", inserted := none }
    ∧ createProperty "u1" { cBody2 with price := some (.num 0) } none
        = createProperty "u1" { cBody2 with price := none } none := by
  obtain ⟨h1, h2⟩ := C9_create_truthiness "u1" cBody9 (Or.inl rfl) none
  exact ⟨h1, h2 cBody2⟩

/-- C10: the create handler never reads an `images` field — the response
and the issued insert are unchanged by any `images` value in the body; the
payload's only image column is the singular `image`, copied from the body;
and the created row's images sequence is always null, so it can only be
populated via the dedicated attach endpoint. -/
theorem C10_create_ignores_images (uid : String) (body : PropCreateBody)
    (insertErr : Option String) :
    (∀ v : Option JsVal,
       createProperty uid { body with images := v } insertErr
         = createProperty uid body insertErr)
    ∧ (∀ p : PropPayload,
       (createProperty uid body insertErr).inserted = some p → p.image = body.image)
    ∧ (∀ (id : Nat) (p : PropPayload), (rowOfPayload id p).images = none) := by
  refine ⟨fun v => rfl, ?_, fun id p => rfl⟩
  intro p hp
  unfold createProperty at hp
  by_cases hc : (!truthyOpt body.name || !truthyOpt body.owner ||
      !truthyOpt body.price || !truthyOpt body.area ||
      !truthyOpt body.exactAddress || !truthyOpt body.bhkType ||
      !truthyOpt body.location) = true
  · rw [if_pos hc] at hp
    simp at hp
  · rw [if_neg hc] at hp
    cases insertErr with
    | some e => simp at hp; rw [← hp]
    | none => simp at hp; rw [← hp]

/-- C10 witness: at a concrete valid body, adding an `images` value leaves
the handler's outcome unchanged, the issued payload carries the body's
singular image, and the created row's images column is null. -/
theorem C10_create_ignores_images_witness :
    createProperty "u1" { cBody10 with images := some (.str "zzz") } none
      = createProperty "u1" cBody10 none
    ∧ ((createProperty "u1" cBody10 none).inserted = some cPayload10
        ∧ cPayload10.image = cBody10.image)
    ∧ (rowOfPayload 3 cPayload10).images = none := by
  obtain ⟨h1, h2, h3⟩ := C10_create_ignores_images "u1" cBody10 none
  exact ⟨h1 (some (.str "zzz")), ⟨by decide, h2 cPayload10 (by decide)⟩, h3 3 cPayload10⟩

/-- C3: a review-create request with customerName missing, or with a
numeric ratings value outside [1,5], is rejected — by the handler's own
validation or by the store's row constraint — and no review row is
created (the response is never 201). -/
theorem C3_review_create_invalid (uid : String) (body : ReviewBody)
    (h : body.customerName = none ∨
         ∃ r : Int, body.ratings = some (.num r) ∧ (r < 1 ∨ 5 < r)) :
    (createReview uid body).created = none
    ∧ (createReview uid body).status ≠ 201 := by
  rcases h with h | ⟨r, hr, hout⟩
  · have hrej : createReview uid body =
        { status := 400, msg := "Customer name and ratings are required",
          created := none } := by
      unfold createReview
      simp [h, truthyOpt]
    rw [hrej]
    exact ⟨rfl, by decide⟩
  · by_cases hc : (!truthyOpt body.customerName || ratingsAbsent body.ratings) = true
    · unfold createReview
      rw [if_pos hc]
      exact ⟨rfl, by decide⟩
    · have hok : reviewRowOk
          { customerName := body.customerName, ratings := body.ratings,
            review := body.review, image := body.image, created_by := uid } = false := by
        rcases hout with hlt | hgt
        · have h1 : ¬ (1 ≤ r) := by omega
          simp [reviewRowOk, hr, h1]
        · have h1 : ¬ (r ≤ 5) := by omega
          simp [reviewRowOk, hr, h1]
      have hrej : createReview uid body =
          { status := 500, msg := "Server error", created := none } := by
        unfold createReview
        rw [if_neg hc]
        simp [hok]
      rw [hrej]
      exact ⟨rfl, by decide⟩

/-- C3 witness: the concrete body with ratings 7 creates no row and is not
answered 201. -/
theorem C3_review_create_invalid_witness :
    (createReview "u1" cBody3).created = none
    ∧ (createReview "u1" cBody3).status ≠ 201 :=
  C3_review_create_invalid "u1" cBody3 (Or.inr ⟨7, rfl, Or.inr (by decide)⟩)

/-- C4: on an existing property, a detach request whose url is not in the
images sequence is answered 400 with no storage remove and no database
update, leaving the sequence unchanged; when the storage remove is
attempted and fails, the response is an error, the update statement is
never issued and the sequence is left unmodified; and globally, the
database update is issued only when the storage remove succeeded — the two
steps are never split so that only the second commits. -/
theorem C4_detach_guards (imgsOpt : Option (List String)) (url : String)
    (removeErr updErr : Option String) :
    (url ≠ "" → url ∉ currentImages imgsOpt →
      detachImage (.ok imgsOpt) (some url) removeErr updErr =
        { status := 400, msg := "URL not found on property",
          removeAttempted := none, updateIssued := false, dbCommitted := none })
    ∧ (∀ er i, url ≠ "" → url ∈ currentImages imgsOpt →
        strIdx url publicBase = some i → removeErr = some er →
        (detachImage (.ok imgsOpt) (some url) removeErr updErr).status = 500
        ∧ (detachImage (.ok imgsOpt) (some url) removeErr updErr).updateIssued = false
        ∧ (detachImage (.ok imgsOpt) (some url) removeErr updErr).dbCommitted = none
        ∧ detachImagesAfter (currentImages imgsOpt)
            (detachImage (.ok imgsOpt) (some url) removeErr updErr)
            = currentImages imgsOpt)
    ∧ (∀ (fe : Except String (Option (List String))) (u : Option String)
          (re ue : Option String),
        (detachImage fe u re ue).updateIssued = true → re = none) := by
  refine ⟨?_, ?_, ?_⟩
  · intro hne hnm
    simp [detachImage, truthyStr, hne, hnm]
  · intro er i hne hm hidx hre
    subst hre
    simp [detachImage, truthyStr, hne, hm, hidx, detachImagesAfter]
  · have key : ∀ (fe : Except String (Option (List String))) (u : Option String)
        (er : String) (ue : Option String),
        (detachImage fe u (some er) ue).updateIssued = false := by
      intro fe u er ue
      unfold detachImage
      repeat' split
      all_goals first | rfl | simp_all
      all_goals repeat' split
      all_goals rfl
    intro fe u re ue hup
    cases re with
    | none => rfl
    | some er =>
      rw [key fe u er ue] at hup
      exact absurd hup (by decide)

/-- C4 witness: at a concrete one-image property, detaching an absent url
is answered 400 with nothing issued; detaching the present url while the
storage remove fails gives 500 with no update issued and the sequence
unmodified; and a concrete committed detach has a successful remove. -/
theorem C4_detach_guards_witness :
    detachImage (.ok (some [scUrl scFile1])) (some "nope") none none =
      { status := 400, msg := "URL not found on property",
        removeAttempted := none, updateIssued := false, dbCommitted := none }
    ∧ ((detachImage (.ok (some [scUrl scFile1])) (some (scUrl scFile1))
          (some "storage down") none).status = 500
      ∧ (detachImage (.ok (some [scUrl scFile1])) (some (scUrl scFile1))
          (some "storage down") none).updateIssued = false
      ∧ (detachImage (.ok (some [scUrl scFile1])) (some (scUrl scFile1))
          (some "storage down") none).dbCommitted = none
      ∧ detachImagesAfter (currentImages (some [scUrl scFile1]))
          (detachImage (.ok (some [scUrl scFile1])) (some (scUrl scFile1))
            (some "storage down") none)
          = currentImages (some [scUrl scFile1]))
    ∧ (none : Option String) = none := by
  obtain ⟨p1, _, _⟩ :=
    C4_detach_guards (some [scUrl scFile1]) "nope" none none
  obtain ⟨_, p2, p3⟩ :=
    C4_detach_guards (some [scUrl scFile1]) (scUrl scFile1) (some "storage down") none
  refine ⟨p1 (by decide) (by decide), ?_, ?_⟩
  · exact p2 "storage down" 24 (by decide) (by decide) (by decide) rfl
  · exact p3 (.ok (some [scUrl scFile1])) (some (scUrl scFile1)) none none (by decide)

/-- C5: a successful attach of n files (1 ≤ n ≤ 10) to an existing
property commits an images sequence equal to the previous one with the n
uploaded URLs appended in file order; in particular, on a freshly created
property (null images column) attaching two files commits a sequence of
length 2, and detaching one of the two URLs commits a sequence of
length 1. -/
theorem C5_attach_appends (imgsOpt : Option (List String))
    (files : List FileMeta) (up : FileMeta → Except String String)
    (g : FileMeta → String)
    (h1 : 1 ≤ files.length) (h2 : files.length ≤ 10)
    (h3 : ∀ f ∈ files, up f = .ok (g f)) :
    attachImages (.ok imgsOpt) files up none =
      { status := 200, msg := "Uploaded",
        dbCommitted := some (currentImages imgsOpt ++ files.map g) }
    ∧ ((attachImages (.ok (rowOfPayload 7 scPayload).images)
          [scFile1, scFile2] scUp none).dbCommitted
        = some [scUrl scFile1, scUrl scFile2]
      ∧ ((attachImages (.ok (rowOfPayload 7 scPayload).images)
          [scFile1, scFile2] scUp none).dbCommitted.getD []).length = 2
      ∧ (detachImage
          (.ok (attachImages (.ok (rowOfPayload 7 scPayload).images)
            [scFile1, scFile2] scUp none).dbCommitted)
          (some (scUrl scFile1)) none none).dbCommitted = some [scUrl scFile2]
      ∧ ((detachImage
          (.ok (attachImages (.ok (rowOfPayload 7 scPayload).images)
            [scFile1, scFile2] scUp none).dbCommitted)
          (some (scUrl scFile1)) none none).dbCommitted.getD []).length = 1) := by
  constructor
  · have hlen : ¬ files.length = 0 := by omega
    have hup := uploadAll_ok up g files h3
    simp [attachImages, hlen, hup]
  · exact ⟨by decide, by decide, by decide, by decide⟩

/-- C5 witness: attaching one file to a property whose images sequence is
empty commits exactly that file's URL, and the concrete two-file
round-trip commits sequences of length 2 and then 1. -/
theorem C5_attach_appends_witness :
    attachImages (.ok (some [])) [scFile1] scUp none =
      { status := 200, msg := "Uploaded", dbCommitted := some [scUrl scFile1] }
    ∧ ((attachImages (.ok (rowOfPayload 7 scPayload).images)
          [scFile1, scFile2] scUp none).dbCommitted
        = some [scUrl scFile1, scUrl scFile2]
      ∧ ((attachImages (.ok (rowOfPayload 7 scPayload).images)
          [scFile1, scFile2] scUp none).dbCommitted.getD []).length = 2
      ∧ (detachImage
          (.ok (attachImages (.ok (rowOfPayload 7 scPayload).images)
            [scFile1, scFile2] scUp none).dbCommitted)
          (some (scUrl scFile1)) none none).dbCommitted = some [scUrl scFile2]
      ∧ ((detachImage
          (.ok (attachImages (.ok (rowOfPayload 7 scPayload).images)
            [scFile1, scFile2] scUp none).dbCommitted)
          (some (scUrl scFile1)) none none).dbCommitted.getD []).length = 1) :=
  C5_attach_appends (some []) [scFile1] scUp scUrl (by decide) (by decide)
    (fun f _ => rfl)

/-- Helper: a candidate object key piece `fresh ++ "." ++ ext` is never the
empty string, so `filter(Boolean)` keeps it. -/
theorem dot_key_ne (a b : String) : a ++ "." ++ b ≠ "" := by
  intro h
  have h2 := congrArg String.length h
  rw [String.length_append, String.length_append] at h2
  have h3 : ".".length = 1 := rfl
  have h4 : "".length = 0 := rfl
  rw [h3, h4] at h2
  omega

/-- C6: the generated object key's extension is the MIME-derived one when
that derivation succeeds, else the original filename's extension, else the
literal "bin"; the key is the fresh identifier plus that extension, under
the optional folder; the upload is issued on the given bucket without
overwrite (`upsert := false`); and on success the call returns the key and
its public URL. -/
theorem C6_uploadToBucket_contract (mimeExt : String → Option String)
    (publicUrlOf : String → String → String) (fresh : String)
    (upErr : Option String) (bucket originalName mimetype subfolder : String) :
    (∀ e, mimeExt mimetype = some e → e ≠ "" →
      extFor mimeExt mimetype originalName = e)
    ∧ (mimeExt mimetype = none →
        replaceFirst (extnameJs originalName) "." "" ≠ "" →
        extFor mimeExt mimetype originalName
          = replaceFirst (extnameJs originalName) "." "")
    ∧ (mimeExt mimetype = none →
        replaceFirst (extnameJs originalName) "." "" = "" →
        extFor mimeExt mimetype originalName = "bin")
    ∧ (uploadToBucket mimeExt publicUrlOf fresh upErr bucket originalName
        mimetype subfolder).issued.upsert = false
    ∧ (uploadToBucket mimeExt publicUrlOf fresh upErr bucket originalName
        mimetype subfolder).issued.bucket = bucket
    ∧ (uploadToBucket mimeExt publicUrlOf fresh upErr bucket originalName
        mimetype subfolder).issued.key
        = objectKey subfolder fresh (extFor mimeExt mimetype originalName)
    ∧ (subfolder ≠ "" →
        objectKey subfolder fresh (extFor mimeExt mimetype originalName)
          = subfolder ++ "/" ++ (fresh ++ "." ++ extFor mimeExt mimetype originalName))
    ∧ objectKey "" fresh (extFor mimeExt mimetype originalName)
        = fresh ++ "." ++ extFor mimeExt mimetype originalName
    ∧ (upErr = none →
        (uploadToBucket mimeExt publicUrlOf fresh upErr bucket originalName
          mimetype subfolder).result
          = .ok ((uploadToBucket mimeExt publicUrlOf fresh upErr bucket
              originalName mimetype subfolder).issued.key,
              publicUrlOf bucket (uploadToBucket mimeExt publicUrlOf fresh
                upErr bucket originalName mimetype subfolder).issued.key)) := by
  have hx : (fresh ++ "." ++ extFor mimeExt mimetype originalName) ≠ "" :=
    dot_key_ne fresh (extFor mimeExt mimetype originalName)
  refine ⟨?_, ?_, ?_, rfl, rfl, rfl, ?_, ?_, ?_⟩
  · intro e he hne
    simp [extFor, jsOrS, he, hne]
  · intro hm hfe
    simp [extFor, jsOrS, hm, hfe]
  · intro hm hfe
    simp [extFor, jsOrS, hm, hfe]
  · intro hsub
    have hsub' : (subfolder != "") = true := by simp [hsub]
    have hx' : ((fresh ++ "." ++ extFor mimeExt mimetype originalName) != "") = true := by
      simp only [bne_iff_ne, ne_eq]
      exact hx
    simp only [objectKey, List.filter, hsub', hx']
    rfl
  · have hx' : ((fresh ++ "." ++ extFor mimeExt mimetype originalName) != "") = true := by
      simp only [bne_iff_ne, ne_eq]
      exact hx
    simp only [objectKey, List.filter, hx']
    rfl
  · intro h
    subst h
    rfl

/-- C6 witness: at a concrete MIME table, URL scheme and inputs — a
resolvable MIME type yields its extension, an unresolvable one falls back
to the filename's extension and then to "bin"; the issued upload carries
upsert false on the right bucket, the key is the folder plus fresh id plus
extension, and the successful result is the key with its public URL. -/
theorem C6_uploadToBucket_contract_witness :
    extFor mimeExtC "image/png" "photo.jpeg" = "png"
    ∧ extFor mimeExt0 "image/png" "photo.jpeg"
        = replaceFirst (extnameJs "photo.jpeg") "." ""
    ∧ extFor mimeExt0 "image/png" "noext" = "bin"
    ∧ (uploadToBucket mimeExtC pubC "u1" none "property-images" "photo.jpeg"
        "image/png" "properties/7").issued.upsert = false
    ∧ (uploadToBucket mimeExtC pubC "u1" none "property-images" "photo.jpeg"
        "image/png" "properties/7").issued.bucket = "property-images"
    ∧ objectKey "properties/7" "u1" (extFor mimeExtC "image/png" "photo.jpeg")
        = "properties/7" ++ "/" ++ ("u1" ++ "." ++ extFor mimeExtC "image/png" "photo.jpeg")
    ∧ (uploadToBucket mimeExtC pubC "u1" none "property-images" "photo.jpeg"
        "image/png" "properties/7").result
        = .ok ((uploadToBucket mimeExtC pubC "u1" none "property-images"
            "photo.jpeg" "image/png" "properties/7").issued.key,
            pubC "property-images" (uploadToBucket mimeExtC pubC "u1" none
              "property-images" "photo.jpeg" "image/png" "properties/7").issued.key) := by
  obtain ⟨a1, _, _, a4, a5, _, a7, _, a9⟩ :=
    C6_uploadToBucket_contract mimeExtC pubC "u1" none "property-images"
      "photo.jpeg" "image/png" "properties/7"
  obtain ⟨_, b2, _, _, _, _, _, _, _⟩ :=
    C6_uploadToBucket_contract mimeExt0 pubC "u1" none "property-images"
      "photo.jpeg" "image/png" "properties/7"
  obtain ⟨_, _, c3, _, _, _, _, _, _⟩ :=
    C6_uploadToBucket_contract mimeExt0 pubC "u1" none "property-images"
      "noext" "image/png" "properties/7"
  exact ⟨a1 "png" rfl (by decide), b2 rfl (by decide), c3 rfl (by decide),
    a4, a5, a7 (by decide), a9 rfl⟩

/-- C7 counterexample: at the concrete valid submission, when the first
transport send fails, only one email was attempted — the claim that every
valid submission attempts exactly two emails is false on the code. -/
theorem C7_contactform_counterexample :
    truthyOpt cBody7.name = true ∧ truthyOpt cBody7.phone = true
    ∧ truthyOpt cBody7.email = true
    ∧ (contactformHandler cEnv7 cBody7 (some "SMTP connection refused") none).status = 500
    ∧ (contactformHandler cEnv7 cBody7
        (some "SMTP connection refused") none).trace.attempted.length = 1 := by
  decide

/-- C7 (amended): a submission missing name, phone or email is answered
400 with no email attempted; otherwise the two sends are attempted in
sequence, the second only if the first succeeded — when the first send
succeeds both mails are attempted, with identical bodies, the first to the
submitter's email and the second to the operator inbox; a failure of
either send yields the same generic delivery-error response (identical
status and message whichever send failed, the first possibly already
delivered); and when the first send fails only one mail was attempted. -/
theorem C7_contactform_sends (env : MailEnv) (body : ContactBody) :
    (truthyOpt body.name = false ∨ truthyOpt body.phone = false ∨
      truthyOpt body.email = false →
      ∀ e1 e2, contactformHandler env body e1 e2 =
        { status := 400, msg := "Missing required fields",
          trace := { attempted := [], delivered := [], failure := none } })
    ∧ (truthyOpt body.name = true → truthyOpt body.phone = true →
        truthyOpt body.email = true →
        (∀ e2, (contactformHandler env body none e2).trace.attempted
            = [contactMail1 env body, contactMail2 env body])
        ∧ (contactMail1 env body).toAddr = optToStr body.email
        ∧ (contactMail2 env body).toAddr = mailFallbackAddr env
        ∧ (contactMail1 env body).text = (contactMail2 env body).text
        ∧ (contactformHandler env body none none).status = 200
        ∧ (∀ er e2, (contactformHandler env body (some er) e2).status = 500
            ∧ (contactformHandler env body (some er) e2).msg = "Error sending email"
            ∧ (contactformHandler env body (some er) e2).trace.attempted
                = [contactMail1 env body]
            ∧ (contactformHandler env body (some er) e2).trace.delivered = [])
        ∧ (∀ er, (contactformHandler env body none (some er)).status = 500
            ∧ (contactformHandler env body none (some er)).msg = "Error sending email"
            ∧ (contactformHandler env body none (some er)).trace.delivered
                = [contactMail1 env body])
        ∧ (∀ er er2,
            ((contactformHandler env body (some er) none).status,
              (contactformHandler env body (some er) none).msg)
            = ((contactformHandler env body none (some er2)).status,
              (contactformHandler env body none (some er2)).msg))) := by
  constructor
  · intro h e1 e2
    unfold contactformHandler
    rcases h with h | h | h <;> simp [h]
  · intro hn hp he
    have hcond : (!truthyOpt body.name || !truthyOpt body.phone ||
        !truthyOpt body.email) = false := by
      rw [hn, hp, he]
      rfl
    have hgo : ∀ e1 e2, contactformHandler env body e1 e2 =
        (match (sendContactForm env body e1 e2).failure with
          | some _ =>
            ContactResp.mk 500 "Error sending email" (sendContactForm env body e1 e2)
          | none =>
            ContactResp.mk 200 "Form submitted successfully, email sent."
              (sendContactForm env body e1 e2)) := by
      intro e1 e2
      unfold contactformHandler
      rw [hcond]
      rfl
    refine ⟨?_, rfl, rfl, rfl, ?_, ?_, ?_, ?_⟩
    · intro e2
      rw [hgo]
      cases e2 <;> rfl
    · rw [hgo]
      rfl
    · intro er e2
      rw [hgo]
      exact ⟨rfl, rfl, rfl, rfl⟩
    · intro er
      rw [hgo]
      exact ⟨rfl, rfl, rfl⟩
    · intro er er2
      rw [hgo, hgo]
      rfl

/-- C7 witness: the amended behavior evaluated at the spec's concrete
submission — both sends attempted with identical bodies addressed to the
submitter and the operator when the first succeeds, 200 on full success,
and the same 500 "Error sending email" response whichever send fails. -/
theorem C7_contactform_sends_witness :
    (contactformHandler cEnv7 cBody7 none none).trace.attempted
      = [contactMail1 cEnv7 cBody7, contactMail2 cEnv7 cBody7]
    ∧ (contactMail1 cEnv7 cBody7).toAddr = optToStr cBody7.email
    ∧ (contactMail2 cEnv7 cBody7).toAddr = mailFallbackAddr cEnv7
    ∧ (contactMail1 cEnv7 cBody7).text = (contactMail2 cEnv7 cBody7).text
    ∧ (contactformHandler cEnv7 cBody7 none none).status = 200
    ∧ (contactformHandler cEnv7 cBody7 (some "boom") none).trace.delivered = []
    ∧ (contactformHandler cEnv7 cBody7 none (some "boom")).trace.delivered
        = [contactMail1 cEnv7 cBody7]
    ∧ ((contactformHandler cEnv7 cBody7 (some "boom") none).status,
        (contactformHandler cEnv7 cBody7 (some "boom") none).msg)
      = ((contactformHandler cEnv7 cBody7 none (some "boom")).status,
        (contactformHandler cEnv7 cBody7 none (some "boom")).msg) := by
  obtain ⟨_, hvalid⟩ := C7_contactform_sends cEnv7 cBody7
  obtain ⟨s1, s2, s3, s4, s5, s6, s7, s8⟩ := hvalid (by decide) (by decide) (by decide)
  exact ⟨s1 none, s2, s3, s4, s5, (s6 "boom" none).2.2.2, (s7 "boom").2.2,
    s8 "boom" "boom"⟩

/-- C8: a property-update request for an absent id is answered 404 with
nothing written; for an existing row the committed row applies exactly the
caller-supplied fields — every column supplied in the body takes the
supplied value and every column absent from the body retains its previous
value. -/
theorem C8_update_partial (row : PropRow) (b : PropUpdateBody)
    (e : Option String) :
    (updatePropertyHandler (.error "PGRST116") b e
      = { status := 404, msg := "Property not found", written := none })
    ∧ (updatePropertyHandler (.ok row) b none
      = { status := 200, msg := "Property updated successfully",
          written := some (applyUpdate row b) })
    ∧ (applyUpdate row b).id = row.id
    ∧ (applyUpdate row b).name = upd b.name row.name
    ∧ (applyUpdate row b).description = upd b.description row.description
    ∧ (applyUpdate row b).price = upd b.price row.price
    ∧ (applyUpdate row b).location = upd b.location row.location
    ∧ (applyUpdate row b).owner = upd b.owner row.owner
    ∧ (applyUpdate row b).area = upd b.area row.area
    ∧ (applyUpdate row b).exactAddress = upd b.exactAddress row.exactAddress
    ∧ (applyUpdate row b).bhkType = upd b.bhkType row.bhkType
    ∧ (applyUpdate row b).amenities = upd b.amenities row.amenities
    ∧ (applyUpdate row b).ratings = upd b.ratings row.ratings
    ∧ (applyUpdate row b).reviews = upd b.reviews row.reviews
    ∧ (applyUpdate row b).image = upd b.image row.image
    ∧ (∀ old : Option JsVal, upd none old = old)
    ∧ (∀ (v : JsVal) (old : Option JsVal), upd (some v) old = some v)
    ∧ (b.images = none → (applyUpdate row b).images = row.images)
    ∧ (∀ l, b.images = some l → (applyUpdate row b).images = some l) := by
  refine ⟨rfl, rfl, rfl, rfl, rfl, rfl, rfl, rfl, rfl, rfl, rfl, rfl, rfl,
    rfl, rfl, fun old => rfl, fun v old => rfl, ?_, ?_⟩
  · intro h
    simp [applyUpdate, h]
  · intro l h
    simp [applyUpdate, h]

/-- C8 witness: updating a concrete row with a body carrying only `name`
commits a row whose name is the supplied value and whose every other
column, images included, is unchanged; and an absent id is answered 404
with nothing written. -/
theorem C8_update_partial_witness :
    updatePropertyHandler (.error "PGRST116") cUpd8 none
      = { status := 404, msg := "Property not found", written := none }
    ∧ updatePropertyHandler (.ok cRow8) cUpd8 none
      = { status := 200, msg := "Property updated successfully",
          written := some (applyUpdate cRow8 cUpd8) }
    ∧ (applyUpdate cRow8 cUpd8).name = upd cUpd8.name cRow8.name
    ∧ (applyUpdate cRow8 cUpd8).price = upd cUpd8.price cRow8.price
    ∧ upd (some (.str "New")) cRow8.name = some (.str "New")
    ∧ upd none cRow8.price = cRow8.price
    ∧ (applyUpdate cRow8 cUpd8).images = cRow8.images := by
  obtain ⟨h1, h2, _, h4, _, h6, _, _, _, _, _, _, _, _, _, hnone, hsome,
    himg, _⟩ := C8_update_partial cRow8 cUpd8 none
  exact ⟨h1, h2, h4, h6, hsome (.str "New") cRow8.name, hnone cRow8.price,
    himg rfl⟩

end Clavedeoro
